import Mathlib

/-!
Shallow embedding of the `mac_faster` diagnostic engine
(`src/mac_faster/diagnostics.py` over the data model of
`src/mac_faster/system_state.py`), together with theorems settling the
specification claims about `diagnose`.

Modelling conventions: Python `float` becomes `ℚ` (all thresholds in the
source — 85, 1.5, 15, 40, 20 — are exactly representable), Python `int`
becomes `Int`, `Optional[T]` becomes `Option T`, and the f-string
fixed-point conversions `:.0f` / `:.1f` / `:.2f` become `formatFixed`
(round half to even, then render with the requested number of decimals).
-/

namespace MacFaster

/-- One sampled process (`ProcessUsage` dataclass in `system_state.py`). -/
structure ProcessUsage where
  pid : Int
  name : String
  cpu_percent : ℚ
  memory_percent : ℚ
  rss_bytes : Int
  read_bytes : Int
  write_bytes : Int
deriving DecidableEq

/-- One mounted writable filesystem (`DiskUsage` dataclass). -/
structure DiskUsage where
  mount_point : String
  total_gb : ℚ
  used_gb : ℚ
  percent : ℚ
deriving DecidableEq

/-- The aggregate snapshot (`SystemSnapshot` dataclass). The `timestamp`
field (a `datetime` in the source, consumed by no diagnostic rule) is
modelled as an integer tick. -/
structure SystemSnapshot where
  timestamp : Int
  cpu_percent : ℚ
  load_avg : ℚ × ℚ × ℚ
  cpu_count : Int
  memory_total : Int
  memory_used : Int
  memory_percent : ℚ
  swap_total : Int
  swap_used : Int
  swap_percent : ℚ
  disk_io_read_bytes : Int
  disk_io_write_bytes : Int
  battery_percent : Option ℚ
  power_plugged : Option Bool
  top_cpu_processes : List ProcessUsage
  top_memory_processes : List ProcessUsage
  disk_usages : List DiskUsage
deriving DecidableEq

/-- The engine's output unit (`Bottleneck` dataclass in `diagnostics.py`). -/
structure Bottleneck where
  title : String
  issue : String
  evidence : String
  solutions : List String
deriving DecidableEq, Inhabited

/-- Round a rational to the nearest integer, ties to even — the rounding
used by Python's fixed-point float formatting. -/
def roundHalfEven (q : ℚ) : Int :=
  let f := ⌊q⌋
  if q - f < 1 / 2 then f
  else if q - f > 1 / 2 then f + 1
  else if f % 2 = 0 then f else f + 1

/-- Left-pad a digit string with zeros to length `n`. -/
def padZeros (s : String) (n : Nat) : String :=
  String.mk (List.replicate (n - s.length) '0') ++ s

/-- Render an already-scaled-and-rounded integer with `prec` decimals. -/
def fmtScaled (scaled : Int) (prec : Nat) : String :=
  (if scaled < 0 then "-" else "")
    ++ (if prec = 0 then toString scaled.natAbs
        else toString (scaled.natAbs / 10 ^ prec) ++ "."
          ++ padZeros (toString (scaled.natAbs % 10 ^ prec)) prec)

/-- Model of Python's `format(x, ".Pf")` on our rational model of floats:
scale by `10 ^ prec`, round half to even, and print with `prec` decimals. -/
def formatFixed (q : ℚ) (prec : Nat) : String :=
  fmtScaled (roundHalfEven (q * (10 : ℚ) ^ prec)) prec

lemma roundHalfEven_intCast (n : Int) : roundHalfEven ((n : ℚ)) = n := by
  simp only [roundHalfEven]
  rw [Int.floor_intCast]
  norm_num

lemma formatFixed_eq_fmtScaled (q : ℚ) (p : Nat) (n : Int)
    (h : roundHalfEven (q * (10 : ℚ) ^ p) = n) :
    formatFixed q p = fmtScaled n p := by
  rw [formatFixed, h]

lemma formatFixed_ninety_zero : formatFixed (90 : ℚ) 0 = "90" := by
  rw [formatFixed_eq_fmtScaled (90 : ℚ) 0 90 ?_]
  · rfl
  · rw [show ((90 : ℚ) * (10 : ℚ) ^ (0 : Nat)) = ((90 : Int) : ℚ) by norm_num]
    exact roundHalfEven_intCast 90

/-- Python truthiness of an `Optional[bool]`: `None` is falsy, otherwise
the boolean itself (`not snapshot.power_plugged` in `_diagnose_battery`). -/
def optBoolTruthy : Option Bool → Bool
  | none => false
  | some b => b

/-- `_top_process_summary`: empty list yields the none-identified note,
otherwise the first three processes are formatted and joined. -/
def _top_process_summary (processes : List ProcessUsage) : String :=
  if processes.isEmpty then "未能识别高占用进程。"
  else
    let offenders := String.intercalate ", "
      ((processes.take 3).map (fun proc =>
        proc.name ++ " (pid " ++ toString proc.pid ++ ", "
          ++ formatFixed proc.cpu_percent 0 ++ "% CPU, "
          ++ formatFixed proc.memory_percent 0 ++ "% 内存)"))
    "主要占用：" ++ offenders ++ "。"

/-- `_diagnose_cpu`: overload tier (`CPU 热点`) when
`cpu_percent >= 85 or load_1m >= cpu_count * 1.5`, otherwise the elevated
tier (`CPU 负载偏高`) when `load_1m > cpu_count`. -/
def _diagnose_cpu (snapshot : SystemSnapshot) : List Bottleneck :=
  let load_1m := snapshot.load_avg.1
  let overloaded : Bool :=
    decide (snapshot.cpu_percent ≥ 85)
      || decide (load_1m ≥ (snapshot.cpu_count : ℚ) * (3 / 2))
  if overloaded then
    let offenders := _top_process_summary snapshot.top_cpu_processes
    [ { title := "CPU 热点"
      , issue := "CPU 长时间占用高，正在拖慢系统响应。"
      , evidence := "总占用 " ++ formatFixed snapshot.cpu_percent 0
          ++ "% ，1 分钟平均负载 " ++ formatFixed load_1m 2
          ++ "（" ++ toString snapshot.cpu_count ++ " 核心）。" ++ offenders
      , solutions :=
          [ "在活动监视器中强制退出占用高的进程，或在终端执行 `kill <pid>`。"
          , "关闭或暂停正在进行的大量编译、转码、虚拟机等任务。"
          , "升级重负载应用，避免兼容层或模拟器导致的额外 CPU 消耗。" ] } ]
  else if decide (load_1m > (snapshot.cpu_count : ℚ)) then
    [ { title := "CPU 负载偏高"
      , issue := "负载超过可用核心数，存在短时堵塞。"
      , evidence := "1 分钟平均负载 " ++ formatFixed load_1m 2
          ++ "，核心数 " ++ toString snapshot.cpu_count ++ "。"
      , solutions :=
          [ "检查是否有后台编译或脚本任务忘记关闭。"
          , "减少同时运行的 Docker/虚拟机实例数量。" ] } ]
  else []

/-- `_diagnose_memory`: `内存压力` when `memory_percent >= 85`. -/
def _diagnose_memory (snapshot : SystemSnapshot) : List Bottleneck :=
  if snapshot.memory_percent ≥ 85 then
    let offenders := _top_process_summary snapshot.top_memory_processes
    [ { title := "内存压力"
      , issue := "可用内存不足，系统可能在频繁换页导致卡顿。"
      , evidence := "内存占用 " ++ formatFixed snapshot.memory_percent 0
          ++ "% ，已用 " ++ formatFixed ((snapshot.memory_used : ℚ) / 1024 ^ 3) 1
          ++ " GiB。" ++ offenders
      , solutions :=
          [ "关闭占用高的应用或浏览器标签页，减少并行打开的工程。"
          , "在活动监视器中查看“内存压力”是否持续偏高，必要时重启占用高的服务。"
          , "升级内存容量或启用通用控制/Sidecar 等功能时减少后台虚拟机数量。" ] } ]
  else []

/-- `_diagnose_disk`: one `磁盘空间不足` entry per disk with
`percent >= 85`, preserving iteration order. -/
def _diagnose_disk : List DiskUsage → List Bottleneck
  | [] => []
  | disk :: rest =>
    (if disk.percent ≥ 85 then
      [ { title := "磁盘空间不足"
        , issue := disk.mount_point ++ " 分区空间告急，写入和虚拟内存会变慢。"
        , evidence := "使用率 " ++ formatFixed disk.percent 0
            ++ "% （已用 " ++ formatFixed disk.used_gb 1
            ++ " / " ++ formatFixed disk.total_gb 1 ++ " GiB）。"
        , solutions :=
            [ "清理 Xcode DerivedData、Pod 缓存、Docker 镜像等临时文件。"
            , "将大型视频、安装包移动到外置硬盘或 iCloud。"
            , "开启“优化 Mac 存储”并清空废纸篓。" ] } ]
    else []) ++ _diagnose_disk rest

/-- `_diagnose_swap`: silent below 15; one entry otherwise, with the
severity word `频繁` from 40 up and `明显` below. -/
def _diagnose_swap (swap_percent : ℚ) : List Bottleneck :=
  if swap_percent < 15 then []
  else
    let severity := if swap_percent ≥ 40 then "频繁" else "明显"
    [ { title := "Swap 读写"
      , issue := "出现" ++ severity ++ "的虚拟内存读写，说明物理内存紧张。"
      , evidence := "交换分区占用 " ++ formatFixed swap_percent 0 ++ "% 。"
      , solutions :=
          [ "减少常驻后台的 Electron/浏览器应用数量。"
          , "关闭占用内存高的容器或模拟器，释放内存后观察卡顿是否缓解。" ] } ]

/-- `_diagnose_battery`: `None` battery is silent; otherwise `电量过低`
exactly when `not power_plugged and battery_percent < 20`. -/
def _diagnose_battery (snapshot : SystemSnapshot) : Option Bottleneck :=
  match snapshot.battery_percent with
  | none => none
  | some bp =>
    if !optBoolTruthy snapshot.power_plugged && decide (bp < 20) then
      some
        { title := "电量过低"
        , issue := "电池电量低于 20%，系统可能自动降频。"
        , evidence := "当前电量 " ++ formatFixed bp 0 ++ "% ，未连接电源。"
        , solutions :=
            [ "连接电源适配器，避免 macOS 自动降低性能。"
            , "在设置里关闭“低电量模式”。" ] }
    else none

/-- `diagnose`: concatenate the five rules' findings, CPU first, then
memory, disk, swap, and the optional battery note last. -/
def diagnose (snapshot : SystemSnapshot) : List Bottleneck :=
  _diagnose_cpu snapshot
    ++ _diagnose_memory snapshot
    ++ _diagnose_disk snapshot.disk_usages
    ++ _diagnose_swap snapshot.swap_percent
    ++ (_diagnose_battery snapshot).toList

/-! ### Helper lemmas: which titles each rule can emit -/

lemma title_of_mem_cpu {s : SystemSnapshot} {b : Bottleneck}
    (hb : b ∈ _diagnose_cpu s) :
    b.title = "CPU 热点" ∨ b.title = "CPU 负载偏高" := by
  simp only [_diagnose_cpu] at hb
  split at hb
  · rw [List.mem_singleton] at hb; subst hb; left; rfl
  · split at hb
    · rw [List.mem_singleton] at hb; subst hb; right; rfl
    · cases hb

lemma title_of_mem_memory {s : SystemSnapshot} {b : Bottleneck}
    (hb : b ∈ _diagnose_memory s) : b.title = "内存压力" := by
  simp only [_diagnose_memory] at hb
  split at hb
  · rw [List.mem_singleton] at hb; subst hb; rfl
  · cases hb

lemma title_of_mem_disk {d : List DiskUsage} {b : Bottleneck}
    (hb : b ∈ _diagnose_disk d) : b.title = "磁盘空间不足" := by
  induction d with
  | nil => cases hb
  | cons disk rest ih =>
    simp only [_diagnose_disk] at hb
    rw [List.mem_append] at hb
    rcases hb with hb | hb
    · split at hb
      · rw [List.mem_singleton] at hb; subst hb; rfl
      · cases hb
    · exact ih hb

lemma title_of_mem_swap {q : ℚ} {b : Bottleneck}
    (hb : b ∈ _diagnose_swap q) : b.title = "Swap 读写" := by
  simp only [_diagnose_swap] at hb
  split at hb
  · cases hb
  · rw [List.mem_singleton] at hb; subst hb; rfl

lemma title_of_battery_some {s : SystemSnapshot} {b : Bottleneck}
    (hB : _diagnose_battery s = some b) : b.title = "电量过低" := by
  unfold _diagnose_battery at hB
  cases hbp : s.battery_percent with
  | none => simp only [hbp] at hB; cases hB
  | some bp =>
    simp only [hbp] at hB
    split at hB
    · injection hB with hB; subst hB; rfl
    · cases hB

lemma title_of_mem_battery {s : SystemSnapshot} {b : Bottleneck}
    (hb : b ∈ (_diagnose_battery s).toList) : b.title = "电量过低" := by
  cases hB : _diagnose_battery s with
  | none => rw [hB] at hb; cases hb
  | some bb =>
    rw [hB] at hb
    simp only [Option.toList, List.mem_singleton] at hb
    subst hb
    exact title_of_battery_some hB

/-- `diagnose` split as CPU findings followed by all the rest. -/
lemma diagnose_eq_cpu_append (s : SystemSnapshot) :
    diagnose s = _diagnose_cpu s
      ++ (_diagnose_memory s ++ _diagnose_disk s.disk_usages
          ++ _diagnose_swap s.swap_percent ++ (_diagnose_battery s).toList) := by
  simp only [diagnose, List.append_assoc]

lemma title_of_mem_rest {s : SystemSnapshot} {b : Bottleneck}
    (hb : b ∈ _diagnose_memory s ++ _diagnose_disk s.disk_usages
        ++ _diagnose_swap s.swap_percent ++ (_diagnose_battery s).toList) :
    b.title = "内存压力" ∨ b.title = "磁盘空间不足"
      ∨ b.title = "Swap 读写" ∨ b.title = "电量过低" := by
  simp only [List.mem_append] at hb
  rcases hb with ((hb | hb) | hb) | hb
  · exact Or.inl (title_of_mem_memory hb)
  · exact Or.inr (Or.inl (title_of_mem_disk hb))
  · exact Or.inr (Or.inr (Or.inl (title_of_mem_swap hb)))
  · exact Or.inr (Or.inr (Or.inr (title_of_mem_battery hb)))

lemma mem_of_getElemOpt {α : Type} {l : List α} {n : Nat} {a : α}
    (h : l[n]? = some a) : a ∈ l := by
  rcases List.getElem?_eq_some_iff.mp h with ⟨h1, h2⟩
  exact h2 ▸ List.getElem_mem h1

/-! ### Shape lemmas: the exact output of each rule under each guard -/

lemma diagnose_cpu_overloaded {s : SystemSnapshot}
    (h : 85 ≤ s.cpu_percent ∨ (s.cpu_count : ℚ) * (3 / 2) ≤ s.load_avg.1) :
    _diagnose_cpu s =
      [ { title := "CPU 热点"
        , issue := "CPU 长时间占用高，正在拖慢系统响应。"
        , evidence := "总占用 " ++ formatFixed s.cpu_percent 0
            ++ "% ，1 分钟平均负载 " ++ formatFixed s.load_avg.1 2
            ++ "（" ++ toString s.cpu_count ++ " 核心）。"
            ++ _top_process_summary s.top_cpu_processes
        , solutions :=
            [ "在活动监视器中强制退出占用高的进程，或在终端执行 `kill <pid>`。"
            , "关闭或暂停正在进行的大量编译、转码、虚拟机等任务。"
            , "升级重负载应用，避免兼容层或模拟器导致的额外 CPU 消耗。" ] } ] := by
  have hb : (decide (s.cpu_percent ≥ 85)
      || decide (s.load_avg.1 ≥ (s.cpu_count : ℚ) * (3 / 2))) = true := by
    simpa using h
  simp [_diagnose_cpu, hb]

lemma diagnose_cpu_elevated {s : SystemSnapshot}
    (h : ¬(85 ≤ s.cpu_percent ∨ (s.cpu_count : ℚ) * (3 / 2) ≤ s.load_avg.1))
    (h2 : (s.cpu_count : ℚ) < s.load_avg.1) :
    _diagnose_cpu s =
      [ { title := "CPU 负载偏高"
        , issue := "负载超过可用核心数，存在短时堵塞。"
        , evidence := "1 分钟平均负载 " ++ formatFixed s.load_avg.1 2
            ++ "，核心数 " ++ toString s.cpu_count ++ "。"
        , solutions :=
            [ "检查是否有后台编译或脚本任务忘记关闭。"
            , "减少同时运行的 Docker/虚拟机实例数量。" ] } ] := by
  have hb : (decide (s.cpu_percent ≥ 85)
      || decide (s.load_avg.1 ≥ (s.cpu_count : ℚ) * (3 / 2))) = false := by
    push_neg at h
    simp [h.1, h.2, not_le.mpr h.1, not_le.mpr h.2]
  simp [_diagnose_cpu, hb, h2]

lemma diagnose_cpu_silent {s : SystemSnapshot}
    (h : ¬(85 ≤ s.cpu_percent ∨ (s.cpu_count : ℚ) * (3 / 2) ≤ s.load_avg.1))
    (h2 : ¬((s.cpu_count : ℚ) < s.load_avg.1)) :
    _diagnose_cpu s = [] := by
  have hb : (decide (s.cpu_percent ≥ 85)
      || decide (s.load_avg.1 ≥ (s.cpu_count : ℚ) * (3 / 2))) = false := by
    push_neg at h
    simp [not_le.mpr h.1, not_le.mpr h.2]
  simp [_diagnose_cpu, hb, h2]

lemma diagnose_memory_pos {s : SystemSnapshot} (h : 85 ≤ s.memory_percent) :
    _diagnose_memory s =
      [ { title := "内存压力"
        , issue := "可用内存不足，系统可能在频繁换页导致卡顿。"
        , evidence := "内存占用 " ++ formatFixed s.memory_percent 0
            ++ "% ，已用 " ++ formatFixed ((s.memory_used : ℚ) / 1024 ^ 3) 1
            ++ " GiB。" ++ _top_process_summary s.top_memory_processes
        , solutions :=
            [ "关闭占用高的应用或浏览器标签页，减少并行打开的工程。"
            , "在活动监视器中查看“内存压力”是否持续偏高，必要时重启占用高的服务。"
            , "升级内存容量或启用通用控制/Sidecar 等功能时减少后台虚拟机数量。" ] } ] := by
  simp [_diagnose_memory, h]

lemma diagnose_memory_neg {s : SystemSnapshot} (h : ¬85 ≤ s.memory_percent) :
    _diagnose_memory s = [] := by
  simp [_diagnose_memory, h]

lemma diagnose_swap_lt {q : ℚ} (h : q < 15) : _diagnose_swap q = [] := by
  simp [_diagnose_swap, h]

lemma diagnose_swap_ge {q : ℚ} (h : ¬q < 15) :
    _diagnose_swap q =
      [ { title := "Swap 读写"
        , issue := "出现" ++ (if q ≥ 40 then "频繁" else "明显")
            ++ "的虚拟内存读写，说明物理内存紧张。"
        , evidence := "交换分区占用 " ++ formatFixed q 0 ++ "% 。"
        , solutions :=
            [ "减少常驻后台的 Electron/浏览器应用数量。"
            , "关闭占用内存高的容器或模拟器，释放内存后观察卡顿是否缓解。" ] } ] := by
  simp [_diagnose_swap, h]

lemma diagnose_battery_none {s : SystemSnapshot} (h : s.battery_percent = none) :
    _diagnose_battery s = none := by
  simp [_diagnose_battery, h]

lemma diagnose_battery_some_pos {s : SystemSnapshot} {bp : ℚ}
    (h : s.battery_percent = some bp)
    (h2 : optBoolTruthy s.power_plugged = false) (h3 : bp < 20) :
    _diagnose_battery s =
      some
        { title := "电量过低"
        , issue := "电池电量低于 20%，系统可能自动降频。"
        , evidence := "当前电量 " ++ formatFixed bp 0 ++ "% ，未连接电源。"
        , solutions :=
            [ "连接电源适配器，避免 macOS 自动降低性能。"
            , "在设置里关闭“低电量模式”。" ] } := by
  simp [_diagnose_battery, h, h2, h3]

lemma diagnose_battery_some_neg {s : SystemSnapshot} {bp : ℚ}
    (h : s.battery_percent = some bp)
    (h2 : optBoolTruthy s.power_plugged = true ∨ ¬bp < 20) :
    _diagnose_battery s = none := by
  rcases h2 with h2 | h2 <;> simp [_diagnose_battery, h, h2]

/-! ### Counting helpers -/

lemma countP_eq_zero_of_title {l : List Bottleneck} {t : String}
    (h : ∀ b ∈ l, b.title ≠ t) :
    l.countP (fun b => b.title == t) = 0 := by
  rw [List.countP_eq_zero]
  intro b hb
  simpa using h b hb

lemma countP_diagnose (s : SystemSnapshot) (p : Bottleneck → Bool) :
    (diagnose s).countP p
      = (_diagnose_cpu s).countP p + (_diagnose_memory s).countP p
        + (_diagnose_disk s.disk_usages).countP p
        + (_diagnose_swap s.swap_percent).countP p
        + ((_diagnose_battery s).toList).countP p := by
  simp only [diagnose, List.countP_append]

lemma mem_diagnose_iff {s : SystemSnapshot} {b : Bottleneck} :
    b ∈ diagnose s ↔
      b ∈ _diagnose_cpu s ∨ b ∈ _diagnose_memory s
        ∨ b ∈ _diagnose_disk s.disk_usages ∨ b ∈ _diagnose_swap s.swap_percent
        ∨ b ∈ (_diagnose_battery s).toList := by
  simp [diagnose, List.mem_append, or_assoc]

lemma countP_eq_zero_cpu {t : String} (s : SystemSnapshot)
    (h1 : t ≠ "CPU 热点") (h2 : t ≠ "CPU 负载偏高") :
    (_diagnose_cpu s).countP (fun b => b.title == t) = 0 :=
  countP_eq_zero_of_title (fun b hb => by
    rcases title_of_mem_cpu hb with h | h
    · rw [h]; exact Ne.symm h1
    · rw [h]; exact Ne.symm h2)

lemma countP_eq_zero_memory {t : String} (s : SystemSnapshot)
    (h : t ≠ "内存压力") :
    (_diagnose_memory s).countP (fun b => b.title == t) = 0 :=
  countP_eq_zero_of_title (fun b hb => by
    rw [title_of_mem_memory hb]; exact Ne.symm h)

lemma countP_eq_zero_disk {t : String} (d : List DiskUsage)
    (h : t ≠ "磁盘空间不足") :
    (_diagnose_disk d).countP (fun b => b.title == t) = 0 :=
  countP_eq_zero_of_title (fun b hb => by
    rw [title_of_mem_disk hb]; exact Ne.symm h)

lemma countP_eq_zero_swap {t : String} (q : ℚ) (h : t ≠ "Swap 读写") :
    (_diagnose_swap q).countP (fun b => b.title == t) = 0 :=
  countP_eq_zero_of_title (fun b hb => by
    rw [title_of_mem_swap hb]; exact Ne.symm h)

lemma countP_eq_zero_battery {t : String} (s : SystemSnapshot)
    (h : t ≠ "电量过低") :
    ((_diagnose_battery s).toList).countP (fun b => b.title == t) = 0 :=
  countP_eq_zero_of_title (fun b hb => by
    rw [title_of_mem_battery hb]; exact Ne.symm h)

/-! ### The claims -/

/-- C1: `diagnose` is the concatenation, in this fixed order, of the CPU,
memory, disk, swap and battery rules' findings; in particular any entry
bearing a CPU title sits strictly before any entry bearing the memory
title. -/
theorem diagnose_fixed_order (s : SystemSnapshot) (i j : Nat) (bi bj : Bottleneck)
    (hi : (diagnose s)[i]? = some bi) (hj : (diagnose s)[j]? = some bj)
    (hti : bi.title = "CPU 热点" ∨ bi.title = "CPU 负载偏高")
    (htj : bj.title = "内存压力") :
    diagnose s = _diagnose_cpu s ++ _diagnose_memory s ++ _diagnose_disk s.disk_usages
        ++ _diagnose_swap s.swap_percent ++ (_diagnose_battery s).toList
      ∧ i < j := by
  refine ⟨rfl, ?_⟩
  have hd := diagnose_eq_cpu_append s
  have hiA : i < (_diagnose_cpu s).length := by
    by_contra hge
    push_neg at hge
    rw [hd, List.getElem?_append_right hge] at hi
    have hmem := mem_of_getElemOpt hi
    rcases hti with h | h <;> rcases title_of_mem_rest hmem with h' | h' | h' | h' <;>
      rw [h] at h' <;> exact absurd h' (by decide)
  have hjA : (_diagnose_cpu s).length ≤ j := by
    by_contra hlt
    push_neg at hlt
    rw [hd, List.getElem?_append_left hlt] at hj
    have hmem := mem_of_getElemOpt hj
    rcases title_of_mem_cpu hmem with h | h <;> rw [htj] at h <;>
      exact absurd h (by decide)
  exact lt_of_lt_of_le hiA hjA

/-- Snapshot triggering both the CPU overload rule and the memory rule,
used to instantiate `diagnose_fixed_order`. -/
def snapC1 : SystemSnapshot :=
  { timestamp := 0, cpu_percent := 92, load_avg := (6, 32 / 10, 21 / 10)
  , cpu_count := 4
  , memory_total := 32 * 1024 ^ 3, memory_used := 29 * 1024 ^ 3
  , memory_percent := 90
  , swap_total := 16 * 1024 ^ 3, swap_used := 0, swap_percent := 0
  , disk_io_read_bytes := 0, disk_io_write_bytes := 0
  , battery_percent := none, power_plugged := none
  , top_cpu_processes := [], top_memory_processes := []
  , disk_usages := [] }

/-- Witness for C1: on `snapC1` the CPU hotspot sits at index 0 and the
memory-pressure entry at index 1, so the ordering theorem applies. -/
theorem diagnose_fixed_order_witness :
    diagnose snapC1 = _diagnose_cpu snapC1 ++ _diagnose_memory snapC1
        ++ _diagnose_disk snapC1.disk_usages ++ _diagnose_swap snapC1.swap_percent
        ++ (_diagnose_battery snapC1).toList
      ∧ 0 < 1 :=
  diagnose_fixed_order snapC1 0 1
    ((_diagnose_cpu snapC1).headD default) ((_diagnose_memory snapC1).headD default)
    (by rfl) (by rfl) (Or.inl (by rfl)) (by rfl)

/-- C2: the `CPU 热点` bottleneck is emitted exactly once when
`cpu_percent >= 85` or `load_avg[0] >= cpu_count * 1.5` and never
otherwise; when that guard holds the elevated tier stays silent, the
hotspot's evidence ends with the top-CPU-process summary, and on an empty
process list that summary is the none-identified note. -/
theorem cpu_hotspot_rule (s : SystemSnapshot) :
    ((diagnose s).countP (fun b => b.title == "CPU 热点")
        = if 85 ≤ s.cpu_percent ∨ (s.cpu_count : ℚ) * (3 / 2) ≤ s.load_avg.1
          then 1 else 0)
    ∧ ((85 ≤ s.cpu_percent ∨ (s.cpu_count : ℚ) * (3 / 2) ≤ s.load_avg.1) →
        (diagnose s).countP (fun b => b.title == "CPU 负载偏高") = 0)
    ∧ (∀ b ∈ diagnose s, b.title = "CPU 热点" →
        ∃ p, b.evidence = p ++ _top_process_summary s.top_cpu_processes)
    ∧ (s.top_cpu_processes = [] →
        _top_process_summary s.top_cpu_processes = "未能识别高占用进程。") := by
  refine ⟨?_, ?_, ?_, ?_⟩
  · rw [countP_diagnose, countP_eq_zero_memory s (by decide),
      countP_eq_zero_disk s.disk_usages (by decide),
      countP_eq_zero_swap s.swap_percent (by decide),
      countP_eq_zero_battery s (by decide)]
    by_cases h : 85 ≤ s.cpu_percent ∨ (s.cpu_count : ℚ) * (3 / 2) ≤ s.load_avg.1
    · rw [if_pos h, diagnose_cpu_overloaded h]; rfl
    · rw [if_neg h]
      by_cases h2 : (s.cpu_count : ℚ) < s.load_avg.1
      · rw [diagnose_cpu_elevated h h2]; rfl
      · rw [diagnose_cpu_silent h h2]; rfl
  · intro h
    rw [countP_diagnose, countP_eq_zero_memory s (by decide),
      countP_eq_zero_disk s.disk_usages (by decide),
      countP_eq_zero_swap s.swap_percent (by decide),
      countP_eq_zero_battery s (by decide), diagnose_cpu_overloaded h]
    rfl
  · intro b hb ht
    rcases mem_diagnose_iff.mp hb with hc | hc | hc | hc | hc
    · by_cases h : 85 ≤ s.cpu_percent ∨ (s.cpu_count : ℚ) * (3 / 2) ≤ s.load_avg.1
      · rw [diagnose_cpu_overloaded h, List.mem_singleton] at hc
        subst hc
        exact ⟨"总占用 " ++ formatFixed s.cpu_percent 0 ++ "% ，1 分钟平均负载 "
          ++ formatFixed s.load_avg.1 2 ++ "（" ++ toString s.cpu_count
          ++ " 核心）。", rfl⟩
      · by_cases h2 : (s.cpu_count : ℚ) < s.load_avg.1
        · rw [diagnose_cpu_elevated h h2, List.mem_singleton] at hc
          have hcc : b.title = "CPU 负载偏高" := by rw [hc]
          rw [hcc] at ht
          exact absurd ht (by decide)
        · rw [diagnose_cpu_silent h h2] at hc; cases hc
    · rw [title_of_mem_memory hc] at ht; exact absurd ht (by decide)
    · rw [title_of_mem_disk hc] at ht; exact absurd ht (by decide)
    · rw [title_of_mem_swap hc] at ht; exact absurd ht (by decide)
    · rw [title_of_mem_battery hc] at ht; exact absurd ht (by decide)
  · intro h
    simp [_top_process_summary, h]

/-- C3 counterexample: the snapshot with `cpu_count = -1`,
`load_avg = (-1.5, 0, 0)` and `cpu_percent = 0`. -/
def snapC3 : SystemSnapshot :=
  { timestamp := 0, cpu_percent := 0, load_avg := (-(3 / 2), 0, 0)
  , cpu_count := -1
  , memory_total := 32 * 1024 ^ 3, memory_used := 8 * 1024 ^ 3
  , memory_percent := 40
  , swap_total := 16 * 1024 ^ 3, swap_used := 0, swap_percent := 0
  , disk_io_read_bytes := 0, disk_io_write_bytes := 0
  , battery_percent := none, power_plugged := none
  , top_cpu_processes := [], top_memory_processes := []
  , disk_usages := [] }

/-- C3, refuting the claim as stated: `snapC3` has `cpu_percent < 85` and
`load_avg[0] < cpu_count`, yet a CPU bottleneck (`CPU 热点`) is emitted,
because `load_avg[0] >= cpu_count * 1.5` holds for a negative core count. -/
theorem cpu_elevated_rule_cex :
    snapC3.cpu_percent < 85 ∧ snapC3.load_avg.1 < (snapC3.cpu_count : ℚ)
      ∧ (diagnose snapC3).countP (fun b => b.title == "CPU 热点") = 1 := by
  refine ⟨by norm_num [snapC3], by norm_num [snapC3], ?_⟩
  have hover : 85 ≤ snapC3.cpu_percent
      ∨ (snapC3.cpu_count : ℚ) * (3 / 2) ≤ snapC3.load_avg.1 :=
    Or.inr (by norm_num [snapC3])
  rw [countP_diagnose, countP_eq_zero_memory snapC3 (by decide),
    countP_eq_zero_disk snapC3.disk_usages (by decide),
    countP_eq_zero_swap snapC3.swap_percent (by decide),
    countP_eq_zero_battery snapC3 (by decide),
    diagnose_cpu_overloaded hover]
  rfl

/-- C3 (amended): `CPU 负载偏高` is emitted exactly when the overload tier
did not trigger and `load_avg[0] > cpu_count` strictly; and for every
snapshot with a nonnegative core count, `cpu_percent < 85` and
`load_avg[0] < cpu_count` together silence both CPU tiers. -/
theorem cpu_elevated_rule (s : SystemSnapshot) :
    ((diagnose s).countP (fun b => b.title == "CPU 负载偏高")
        = if ¬(85 ≤ s.cpu_percent ∨ (s.cpu_count : ℚ) * (3 / 2) ≤ s.load_avg.1)
              ∧ (s.cpu_count : ℚ) < s.load_avg.1
          then 1 else 0)
    ∧ (0 ≤ s.cpu_count → s.cpu_percent < 85 → s.load_avg.1 < (s.cpu_count : ℚ) →
        (diagnose s).countP (fun b => b.title == "CPU 热点") = 0
          ∧ (diagnose s).countP (fun b => b.title == "CPU 负载偏高") = 0) := by
  have base : ∀ t : String, t ≠ "内存压力" → t ≠ "磁盘空间不足" →
      t ≠ "Swap 读写" → t ≠ "电量过低" →
      (diagnose s).countP (fun b => b.title == t)
        = (_diagnose_cpu s).countP (fun b => b.title == t) := by
    intro t h1 h2 h3 h4
    rw [countP_diagnose, countP_eq_zero_memory s h1,
      countP_eq_zero_disk s.disk_usages h2, countP_eq_zero_swap s.swap_percent h3,
      countP_eq_zero_battery s h4]
    omega
  constructor
  · rw [base "CPU 负载偏高" (by decide) (by decide) (by decide) (by decide)]
    by_cases h : 85 ≤ s.cpu_percent ∨ (s.cpu_count : ℚ) * (3 / 2) ≤ s.load_avg.1
    · rw [diagnose_cpu_overloaded h, if_neg (fun hx => hx.1 h)]; rfl
    · by_cases h2 : (s.cpu_count : ℚ) < s.load_avg.1
      · rw [diagnose_cpu_elevated h h2, if_pos ⟨h, h2⟩]; rfl
      · rw [diagnose_cpu_silent h h2, if_neg (fun hx => h2 hx.2)]; rfl
  · intro h0 h1 h2
    have hcast : (0 : ℚ) ≤ (s.cpu_count : ℚ) := by exact_mod_cast h0
    have hno : ¬(85 ≤ s.cpu_percent ∨ (s.cpu_count : ℚ) * (3 / 2) ≤ s.load_avg.1) := by
      rintro (hx | hx)
      · linarith
      · linarith
    have hsil := diagnose_cpu_silent hno (not_lt.mpr h2.le)
    constructor
    · rw [base "CPU 热点" (by decide) (by decide) (by decide) (by decide), hsil]; rfl
    · rw [base "CPU 负载偏高" (by decide) (by decide) (by decide) (by decide), hsil]; rfl

/-- C4: the `内存压力` bottleneck is emitted exactly once when
`memory_percent >= 85` and never otherwise; its evidence cites the percent
(`:.0f`), the used bytes converted to GiB (`:.1f`), and the
top-memory-process summary; at `memory_percent = 90` the evidence contains
the digits `90`. -/
theorem memory_rule (s : SystemSnapshot) :
    ((diagnose s).countP (fun b => b.title == "内存压力")
        = if 85 ≤ s.memory_percent then 1 else 0)
    ∧ (∀ b ∈ diagnose s, b.title = "内存压力" →
        b.evidence = "内存占用 " ++ formatFixed s.memory_percent 0
          ++ "% ，已用 " ++ formatFixed ((s.memory_used : ℚ) / 1024 ^ 3) 1
          ++ " GiB。" ++ _top_process_summary s.top_memory_processes)
    ∧ (s.memory_percent = 90 → ∀ b ∈ diagnose s, b.title = "内存压力" →
        ∃ p q, b.evidence = p ++ "90" ++ q) := by
  have hmem : ∀ b ∈ diagnose s, b.title = "内存压力" →
      b.evidence = "内存占用 " ++ formatFixed s.memory_percent 0
        ++ "% ，已用 " ++ formatFixed ((s.memory_used : ℚ) / 1024 ^ 3) 1
        ++ " GiB。" ++ _top_process_summary s.top_memory_processes := by
    intro b hb ht
    rcases mem_diagnose_iff.mp hb with hc | hc | hc | hc | hc
    · rcases title_of_mem_cpu hc with h | h <;> rw [h] at ht <;>
        exact absurd ht (by decide)
    · by_cases h : 85 ≤ s.memory_percent
      · rw [diagnose_memory_pos h, List.mem_singleton] at hc
        subst hc; rfl
      · rw [diagnose_memory_neg h] at hc; cases hc
    · rw [title_of_mem_disk hc] at ht; exact absurd ht (by decide)
    · rw [title_of_mem_swap hc] at ht; exact absurd ht (by decide)
    · rw [title_of_mem_battery hc] at ht; exact absurd ht (by decide)
  refine ⟨?_, hmem, ?_⟩
  · rw [countP_diagnose, countP_eq_zero_cpu s (by decide) (by decide),
      countP_eq_zero_disk s.disk_usages (by decide),
      countP_eq_zero_swap s.swap_percent (by decide),
      countP_eq_zero_battery s (by decide)]
    by_cases h : 85 ≤ s.memory_percent
    · rw [if_pos h, diagnose_memory_pos h]; rfl
    · rw [if_neg h, diagnose_memory_neg h]; rfl
  · intro h90 b hb ht
    have he := hmem b hb ht
    rw [h90, formatFixed_ninety_zero] at he
    refine ⟨"内存占用 ", "% ，已用 "
      ++ formatFixed ((s.memory_used : ℚ) / 1024 ^ 3) 1
      ++ " GiB。" ++ _top_process_summary s.top_memory_processes, ?_⟩
    rw [he]
    simp only [String.append_assoc]

/-- The entry the disk rule emits for one offending mount — the record
built in the loop body of `_diagnose_disk`. -/
def diskBottleneck (disk : DiskUsage) : Bottleneck :=
  { title := "磁盘空间不足"
  , issue := disk.mount_point ++ " 分区空间告急，写入和虚拟内存会变慢。"
  , evidence := "使用率 " ++ formatFixed disk.percent 0
      ++ "% （已用 " ++ formatFixed disk.used_gb 1
      ++ " / " ++ formatFixed disk.total_gb 1 ++ " GiB）。"
  , solutions :=
      [ "清理 Xcode DerivedData、Pod 缓存、Docker 镜像等临时文件。"
      , "将大型视频、安装包移动到外置硬盘或 iCloud。"
      , "开启“优化 Mac 存储”并清空废纸篓。" ] }

lemma diagnose_disk_eq_map_filter (d : List DiskUsage) :
    _diagnose_disk d
      = (d.filter (fun x => decide (85 ≤ x.percent))).map diskBottleneck := by
  induction d with
  | nil => rfl
  | cons disk rest ih =>
    simp only [_diagnose_disk, List.filter_cons]
    by_cases h : (85 : ℚ) ≤ disk.percent
    · rw [if_pos h, if_pos (by simpa using h)]
      simp [ih, diskBottleneck]
    · rw [if_neg h, if_neg (by simpa using h)]
      simpa using ih

/-- C5: the disk rule turns exactly the disks at `percent >= 85` into
`磁盘空间不足` entries, in `disk_usages` order, the mount point embedded
in the issue; `diagnose` carries one such entry per qualifying mount. -/
theorem disk_rule (s : SystemSnapshot) :
    _diagnose_disk s.disk_usages
        = (s.disk_usages.filter (fun x => decide (85 ≤ x.percent))).map diskBottleneck
    ∧ (∀ d : DiskUsage, (diskBottleneck d).title = "磁盘空间不足"
        ∧ (diskBottleneck d).issue
            = d.mount_point ++ " 分区空间告急，写入和虚拟内存会变慢。")
    ∧ (diagnose s).countP (fun b => b.title == "磁盘空间不足")
        = (s.disk_usages.filter (fun x => decide (85 ≤ x.percent))).length := by
  refine ⟨diagnose_disk_eq_map_filter s.disk_usages, fun d => ⟨rfl, rfl⟩, ?_⟩
  rw [countP_diagnose, countP_eq_zero_cpu s (by decide) (by decide),
    countP_eq_zero_memory s (by decide),
    countP_eq_zero_swap s.swap_percent (by decide),
    countP_eq_zero_battery s (by decide),
    diagnose_disk_eq_map_filter s.disk_usages]
  simp [List.countP_map, Function.comp_def, diskBottleneck, List.countP_true]

/-- C6: the swap rule emits exactly one `Swap 读写` entry when
`swap_percent >= 15` and none below; the issue wording is `频繁`
(frequent) from 40 up and `明显` (noticeable) otherwise — one entry with
two wording tiers. -/
theorem swap_rule (s : SystemSnapshot) :
    ((diagnose s).countP (fun b => b.title == "Swap 读写")
        = if 15 ≤ s.swap_percent then 1 else 0)
    ∧ (∀ b ∈ diagnose s, b.title = "Swap 读写" →
        b.issue = "出现" ++ (if s.swap_percent ≥ 40 then "频繁" else "明显")
          ++ "的虚拟内存读写，说明物理内存紧张。") := by
  constructor
  · rw [countP_diagnose, countP_eq_zero_cpu s (by decide) (by decide),
      countP_eq_zero_memory s (by decide),
      countP_eq_zero_disk s.disk_usages (by decide),
      countP_eq_zero_battery s (by decide)]
    by_cases h : s.swap_percent < 15
    · rw [diagnose_swap_lt h, if_neg (by exact fun hx => absurd h (not_lt.mpr hx))]
      rfl
    · rw [diagnose_swap_ge h, if_pos (not_lt.mp h)]
      rfl
  · intro b hb ht
    rcases mem_diagnose_iff.mp hb with hc | hc | hc | hc | hc
    · rcases title_of_mem_cpu hc with h | h <;> rw [h] at ht <;>
        exact absurd ht (by decide)
    · rw [title_of_mem_memory hc] at ht; exact absurd ht (by decide)
    · rw [title_of_mem_disk hc] at ht; exact absurd ht (by decide)
    · by_cases h : s.swap_percent < 15
      · rw [diagnose_swap_lt h] at hc; cases hc
      · rw [diagnose_swap_ge h, List.mem_singleton] at hc
        rw [hc]
    · rw [title_of_mem_battery hc] at ht; exact absurd ht (by decide)

/-- C7: with no battery reading the battery rule is silent regardless of
power state; with a reading it emits `电量过低` exactly when the snapshot
is not on power (Python truthiness of the optional flag) and the percent
is below 20. -/
theorem battery_rule (s : SystemSnapshot) :
    (s.battery_percent = none →
      _diagnose_battery s = none
        ∧ (diagnose s).countP (fun b => b.title == "电量过低") = 0)
    ∧ (∀ bp : ℚ, s.battery_percent = some bp →
        (diagnose s).countP (fun b => b.title == "电量过低")
          = if optBoolTruthy s.power_plugged = false ∧ bp < 20 then 1 else 0) := by
  have base : (diagnose s).countP (fun b => b.title == "电量过低")
      = ((_diagnose_battery s).toList).countP (fun b => b.title == "电量过低") := by
    rw [countP_diagnose, countP_eq_zero_cpu s (by decide) (by decide),
      countP_eq_zero_memory s (by decide),
      countP_eq_zero_disk s.disk_usages (by decide),
      countP_eq_zero_swap s.swap_percent (by decide)]
    omega
  constructor
  · intro h
    refine ⟨diagnose_battery_none h, ?_⟩
    rw [base, diagnose_battery_none h]
    rfl
  · intro bp h
    rw [base]
    by_cases hpl : optBoolTruthy s.power_plugged = false
    · by_cases hlt : bp < 20
      · rw [diagnose_battery_some_pos h hpl hlt, if_pos ⟨hpl, hlt⟩]
        rfl
      · rw [diagnose_battery_some_neg h (Or.inr hlt), if_neg (fun hx => hlt hx.2)]
        rfl
    · have hpl' : optBoolTruthy s.power_plugged = true := by
        revert hpl; cases optBoolTruthy s.power_plugged <;> simp
      rw [diagnose_battery_some_neg h (Or.inl hpl'), if_neg (fun hx => hpl hx.1)]
      rfl

/-- C8: `diagnose` is total — on every snapshot, malformed numeric fields
included, it returns a list of at most `4 + |disk_usages|` bottlenecks
(one per non-disk rule plus one per mount); there is no error outcome. -/
theorem diagnose_total (s : SystemSnapshot) :
    (diagnose s).length ≤ 4 + s.disk_usages.length := by
  have hcpu : (_diagnose_cpu s).length ≤ 1 := by
    simp only [_diagnose_cpu]
    split
    · simp
    · split <;> simp
  have hm : (_diagnose_memory s).length ≤ 1 := by
    simp only [_diagnose_memory]
    split <;> simp
  have hd : ∀ d : List DiskUsage, (_diagnose_disk d).length ≤ d.length := by
    intro d
    induction d with
    | nil => simp [_diagnose_disk]
    | cons disk rest ih =>
      simp only [_diagnose_disk, List.length_append, List.length_cons]
      split <;> simp <;> omega
  have hs : (_diagnose_swap s.swap_percent).length ≤ 1 := by
    simp only [_diagnose_swap]
    split <;> simp
  have hb : ((_diagnose_battery s).toList).length ≤ 1 := by
    cases _diagnose_battery s <;> simp
  have := hd s.disk_usages
  simp only [diagnose, List.length_append]
  omega

/-- C9: `diagnose` is deterministic — equal snapshots produce bottleneck
sequences of equal length whose entries agree field by field. -/
theorem diagnose_deterministic (s t : SystemSnapshot) (h : s = t) :
    diagnose s = diagnose t
      ∧ (diagnose s).length = (diagnose t).length
      ∧ ∀ i : Nat, ∀ bi bj : Bottleneck,
          (diagnose s)[i]? = some bi → (diagnose t)[i]? = some bj →
          bi.title = bj.title ∧ bi.issue = bj.issue
            ∧ bi.evidence = bj.evidence ∧ bi.solutions = bj.solutions := by
  subst h
  refine ⟨rfl, rfl, ?_⟩
  intro i bi bj h1 h2
  rw [h1] at h2
  injection h2 with h2
  subst h2
  exact ⟨rfl, rfl, rfl, rfl⟩

/-- The spec's baseline healthy snapshot: cpu 20%, load 0.5 on 8 cores,
memory 40%, swap 0, no disks listed, battery absent. -/
def snapBase : SystemSnapshot :=
  { timestamp := 0, cpu_percent := 20, load_avg := (1 / 2, 1 / 2, 1 / 2)
  , cpu_count := 8
  , memory_total := 32 * 1024 ^ 3, memory_used := 8 * 1024 ^ 3
  , memory_percent := 40
  , swap_total := 16 * 1024 ^ 3, swap_used := 0, swap_percent := 0
  , disk_io_read_bytes := 0, disk_io_write_bytes := 0
  , battery_percent := none, power_plugged := none
  , top_cpu_processes := [], top_memory_processes := []
  , disk_usages := [] }

/-- Witness for C9 at the baseline snapshot. -/
theorem diagnose_deterministic_witness :
    diagnose snapBase = diagnose snapBase
      ∧ (diagnose snapBase).length = (diagnose snapBase).length
      ∧ ∀ i : Nat, ∀ bi bj : Bottleneck,
          (diagnose snapBase)[i]? = some bi → (diagnose snapBase)[i]? = some bj →
          bi.title = bj.title ∧ bi.issue = bj.issue
            ∧ bi.evidence = bj.evidence ∧ bi.solutions = bj.solutions :=
  diagnose_deterministic snapBase snapBase rfl

/-- C10: a present battery reading with an absent (`None`) power flag is
treated as unplugged — below 20 percent the low-battery entry is emitted. -/
theorem battery_rule_unplugged_default (s : SystemSnapshot) (bp : ℚ)
    (h1 : s.battery_percent = some bp) (h2 : s.power_plugged = none)
    (h3 : bp < 20) :
    (diagnose s).countP (fun b => b.title == "电量过低") = 1 := by
  have hpl : optBoolTruthy s.power_plugged = false := by
    rw [h2]; rfl
  rw [countP_diagnose, countP_eq_zero_cpu s (by decide) (by decide),
    countP_eq_zero_memory s (by decide),
    countP_eq_zero_disk s.disk_usages (by decide),
    countP_eq_zero_swap s.swap_percent (by decide),
    diagnose_battery_some_pos h1 hpl h3]
  rfl

/-- Snapshot with a 15 percent battery and an absent power flag. -/
def snapC10 : SystemSnapshot :=
  { timestamp := 0, cpu_percent := 20, load_avg := (1 / 2, 1 / 2, 1 / 2)
  , cpu_count := 8
  , memory_total := 32 * 1024 ^ 3, memory_used := 8 * 1024 ^ 3
  , memory_percent := 40
  , swap_total := 16 * 1024 ^ 3, swap_used := 0, swap_percent := 0
  , disk_io_read_bytes := 0, disk_io_write_bytes := 0
  , battery_percent := some 15, power_plugged := none
  , top_cpu_processes := [], top_memory_processes := []
  , disk_usages := [] }

/-- Witness for C10: `snapC10` gets the low-battery bottleneck. -/
theorem battery_rule_unplugged_default_witness :
    (diagnose snapC10).countP (fun b => b.title == "电量过低") = 1 :=
  battery_rule_unplugged_default snapC10 15 rfl rfl (by norm_num)

end MacFaster
